import Mathlib

/-!
Shallow embedding of hitomi-go (src/main.go), a concurrent gallery/image
downloader, together with proofs checking the specification's claims about
it.  Go strings are modelled as Lean `String`s (the inputs of interest are
ASCII, so byte slicing coincides with character slicing), Go `int`/`int64`
as `Int`, byte payloads as `List Nat`, and the external effects (network,
directory creation, file writes) as explicit oracle parameters.  Channel
hand-off in the pipeline is deterministic (single producer, FIFO), so the
job streams are modelled as lists.
-/

set_option maxHeartbeats 1000000

namespace HitomiGo

/-- Configuration record (struct Conf, main.go lines 21-26). -/
structure Conf where
  savePath : String
  socks : String
  retry : Int
  threadNum : Int
  deriving DecidableEq

/-- An image entry of a gallery (struct Image, main.go lines 37-42). -/
structure Image where
  name : String
  hash : String
  hasWebp : Int
  hasAvif : Int
  deriving DecidableEq

/-- A resolved gallery (struct Gallery, main.go lines 28-35). -/
structure Gallery where
  id : String
  title : String
  jpTitle : String
  lang : String
  files : List Image
  url : String
  deriving DecidableEq

/-- A download job (struct Job, main.go lines 44-49). -/
structure Job where
  image : Image
  gallery : Gallery
  savePath : String
  conf : Conf
  deriving DecidableEq

/-- A write job (struct WriteJob, main.go lines 51-54); the payload bytes
are modelled as a list of naturals. -/
structure WriteJob where
  content : List Nat
  fileName : String
  deriving DecidableEq

/-- ValidFileName (main.go lines 317-323): removes every occurrence of the
nine illegal characters.  The sequence of `strings.ReplaceAll` calls with
the empty replacement is equivalent to filtering those characters out. -/
def illegalChars : List Char := [':', '/', '\\', '?', '*', '"', '<', '>', '|']

/-- ValidFileName (main.go lines 317-323). -/
def ValidFileName (path : String) : String :=
  String.mk (path.toList.filter fun c => !(illegalChars.contains c))

/-- Loop body of Unique (main.go lines 305-315): `seen` is the key set of
the Go map, the emitted list keeps first occurrences in order. -/
def uniqueGo : List String → List String → List String
  | [], _ => []
  | s :: rest, seen =>
    if s ∈ seen then uniqueGo rest seen else s :: uniqueGo rest (s :: seen)

/-- Unique (main.go lines 305-315). -/
def Unique (strSlice : List String) : List String := uniqueGo strSlice []

/-- Value of one hex digit, as accepted by strconv.ParseInt base 16
(digits, lowercase and uppercase letters below the base). -/
def hexDigitVal (c : Char) : Option Nat :=
  if 48 ≤ c.toNat ∧ c.toNat ≤ 57 then some (c.toNat - 48)
  else if 97 ≤ c.toNat ∧ c.toNat ≤ 102 then some (c.toNat - 87)
  else if 65 ≤ c.toNat ∧ c.toNat ≤ 70 then some (c.toNat - 55)
  else none

/-- Accumulating hex-digit parse; fails on any non-digit. -/
def parseHexAux : List Char → Nat → Option Nat
  | [], acc => some acc
  | c :: cs, acc =>
    match hexDigitVal c with
    | some d => parseHexAux cs (acc * 16 + d)
    | none => none

/-- Models strconv.ParseInt(s, 16, 64) as used at main.go line 290: an
optional sign, at least one hex digit, and a 64-bit range check; any
failure (empty string, bad digit, overflow) is `none`, which the caller
treats as `err != nil`. -/
def parseInt16 (s : String) : Option Int :=
  match s.toList with
  | [] => none
  | '-' :: rest =>
    match rest with
    | [] => none
    | _ :: _ =>
      match parseHexAux rest 0 with
      | some n => if n ≤ 2 ^ 63 then some (-(n : Int)) else none
      | none => none
  | '+' :: rest =>
    match rest with
    | [] => none
    | _ :: _ =>
      match parseHexAux rest 0 with
      | some n => if n < 2 ^ 63 then some (n : Int) else none
      | none => none
  | l =>
    match parseHexAux l 0 with
    | some n => if n < 2 ^ 63 then some (n : Int) else none
    | none => none

/-- Helper for filepath.Ext: scan the reversed character list, collecting
until the final dot; a path separator or the end of the string before any
dot means there is no extension. -/
def extFromRev : List Char → List Char → Option (List Char)
  | [], _ => none
  | '.' :: _, acc => some ('.' :: acc)
  | '/' :: _, _ => none
  | c :: rest, acc => extFromRev rest (c :: acc)

/-- Models filepath.Ext (main.go line 276): the suffix beginning at the
final dot in the final slash-separated element, empty when there is none. -/
def filepathExt (s : String) : String :=
  match extFromRev s.toList.reverse [] with
  | some l => String.mk l
  | none => ""

/-- h1 of ImageUrl (main.go line 274): the last character of the hash. -/
def imgH1 (img : Image) : String :=
  String.mk (img.hash.toList.drop (img.hash.length - 1))

/-- h2 of ImageUrl (main.go line 275): the two characters before the last. -/
def imgH2 (img : Image) : String :=
  String.mk ((img.hash.toList.drop (img.hash.length - 3)).take 2)

/-- ImageUrl (main.go lines 268-303).  The two hash slices panic in Go when
the hash has fewer than 3 bytes, so the function is modelled as `Option`,
returning `none` exactly when the slicing would be out of bounds. -/
def ImageUrl (img : Image) : Option String :=
  if 3 ≤ img.hash.length then
    let h1 := imgH1 img
    let h2 := imgH2 img
    let directory := if img.hasAvif == 1 then "avif"
      else if img.hasWebp == 1 then "webp" else "images"
    let ext := if img.hasAvif == 1 then ".avif"
      else if img.hasWebp == 1 then ".webp" else filepathExt img.name
    let retval := if img.hasAvif == 1 then "a"
      else if img.hasWebp == 1 then "a" else "b"
    let subDomain :=
      match parseInt16 h2 with
      | some g0 =>
        let numberOfFrontends : Int := if g0 < 0x30 then 2 else 3
        let g1 : Int := if g0 < 0x09 then 1 else g0
        String.mk [Char.ofNat (97 + g1 % numberOfFrontends).toNat] ++ retval
      | none => "a"
    some ("https://" ++ subDomain ++ ".hitomi.la/" ++ directory ++ "/" ++ h1
      ++ "/" ++ h2 ++ "/" ++ img.hash ++ ext)
  else none

/-- The claim's shard-subdomain algorithm, written from the specification's
words, as the refinement target to compare with `ImageUrl`: parse h2 as hex
g; shard count 2 when g < 0x30 else 3; clamp g to 1 when g < 0x09; letter
is 97 + (g mod shardCount); suffix "a" for avif/webp, "b" otherwise. -/
def specShardSubdomain (g : Int) (avifOrWebp : Bool) : String :=
  let shardCount : Int := if g < 0x30 then 2 else 3
  let gClamped : Int := if g < 0x09 then 1 else g
  String.mk [Char.ofNat (97 + gClamped % shardCount).toNat]
    ++ (if avifOrWebp then "a" else "b")

/-- Result of one os.MkdirAll call, seen through the two tests the code
performs on it: success (`err == nil`), an error for which os.IsExist
holds, or any other error. -/
inductive MkdirResult
  | ok
  | existsErr
  | otherErr
  deriving DecidableEq

/-- Observable outcome of DownloadGallery: the download jobs it pushed
onto the job queue and the directory paths it passed to os.MkdirAll, in
order. -/
structure GalleryResult where
  jobs : List Job
  dirsTried : List String
  deriving DecidableEq

/-- Destination directory derived in DownloadGallery (main.go lines
137-147): language (defaulted to "null") and sanitized title (Japanese
title preferred, defaulted to the main title). -/
def galleryDirPath (gallery : Gallery) (conf : Conf) : String :=
  let lang := if gallery.lang == "" then "null" else gallery.lang
  let title := if gallery.jpTitle == "" then gallery.title else gallery.jpTitle
  conf.savePath ++ lang ++ "/" ++ ValidFileName title

/-- DownloadGallery (main.go lines 136-168), with the results of the two
possible os.MkdirAll calls supplied as oracles `mk1` (savePath) and `mk2`
(savePath with " - id" appended).  Note the control flow of lines 148-157:
when the first MkdirAll fails with an exists-error and the retry succeeds,
execution still falls through to the outer `log.Print(err); return`, so no
job is ever enqueued whenever `mk1` is not `ok`. -/
def DownloadGallery (gallery : Gallery) (conf : Conf) (mk1 mk2 : MkdirResult) :
    GalleryResult :=
  let savePath := galleryDirPath gallery conf
  match mk1 with
  | MkdirResult.ok =>
    ⟨gallery.files.map fun img => ⟨img, gallery, savePath, conf⟩, [savePath]⟩
  | MkdirResult.existsErr =>
    let savePath2 := galleryDirPath gallery conf ++ " - " ++ gallery.id
    match mk2 with
    | MkdirResult.ok => ⟨[], [savePath, savePath2]⟩
    | _ => ⟨[], [savePath, savePath2]⟩
  | MkdirResult.otherErr => ⟨[], [savePath]⟩

/-- File name of the produced WriteJob (main.go lines 195-200): the part of
the image name before the first dot, with the extension swapped for avif or
webp variants. -/
def downloadFileName (img : Image) : String :=
  if img.hasAvif == 1 then
    String.mk (img.name.toList.takeWhile fun c => !(c == '.')) ++ ".avif"
  else if img.hasWebp == 1 then
    String.mk (img.name.toList.takeWhile fun c => !(c == '.')) ++ ".webp"
  else img.name

/-- Observable outcome of one DownloadImageHandler call: how many attempts
were made, the WriteJobs pushed to the write queue, how many failure log
lines were printed, and the handler's total contribution to the in-flight
counter (the +1 increment at entry, plus the -1 decrement on abandon; the
matching decrement for a success happens later in WriterHandler). -/
structure DownloadOutcome where
  attempts : Nat
  writeJobs : List WriteJob
  logs : Nat
  inFlightDelta : Int
  deriving DecidableEq

/-- Retry loop of DownloadImageHandler (main.go lines 187-224).  `net tries`
is the network oracle for attempt number `tries`: `some body` when
`Client.Do` succeeds with status 200 and positive content length, `none`
otherwise.  `remaining` counts the failures still allowed before the
`tries > conf.Retry` test fires; the handler starts it at `retry.toNat`,
which makes `remaining = 0` exactly the states with `tries > retry`, so
this fuel-indexed recursion computes the same outcome as the Go loop. -/
def downloadLoopAux (job : Job) (net : Nat → Option (List Nat)) :
    Nat → Nat → DownloadOutcome
  | 0, tries =>
    match net tries with
    | some body =>
      ⟨1, [⟨body, job.savePath ++ "/" ++ downloadFileName job.image⟩], 0, 0⟩
    | none => ⟨1, [], 1, -1⟩
  | r + 1, tries =>
    match net tries with
    | some body =>
      ⟨1, [⟨body, job.savePath ++ "/" ++ downloadFileName job.image⟩], 0, 0⟩
    | none =>
      let res := downloadLoopAux job net r (tries + 1)
      ⟨res.attempts + 1, res.writeJobs, res.logs, res.inFlightDelta⟩

/-- DownloadImageHandler (main.go lines 183-225): increments the counters,
then runs the retry loop starting at `tries = 1`; `retry` is the global
`conf.Retry`. -/
def DownloadImageHandler (job : Job) (retry : Int)
    (net : Nat → Option (List Nat)) : DownloadOutcome :=
  let r := downloadLoopAux job net retry.toNat 1
  ⟨r.attempts, r.writeJobs, r.logs, r.inFlightDelta + 1⟩

/-- Number of WriteJobs produced by the workers for a job list, job `i`
using network oracle `net i`. -/
def jobsWriteCount (retry : Int) (net : Nat → Nat → Option (List Nat)) :
    List Job → Nat → Nat
  | [], _ => 0
  | j :: rest, i =>
    (DownloadImageHandler j retry (net i)).writeJobs.length
      + jobsWriteCount retry net rest (i + 1)

/-- A filesystem snapshot: each path maps to its contents, when the file
exists. -/
def FS : Type := String → Option (List Nat)

/-- Writing a file with or without O_TRUNC: with it the new contents replace
whatever was there; without it the payload would be appended to the prior
contents. -/
def writeFileWithFlags (truncateFlag : Bool) (fs : FS) (path : String)
    (content : List Nat) : FS :=
  fun p =>
    if p = path then
      some (if truncateFlag then content else ((fs path).getD []) ++ content)
    else fs p

/-- Models io/ioutil.WriteFile as called at main.go line 243: it opens with
O_WRONLY, O_CREATE and O_TRUNC (the third argument, os.ModeAppend, is only
the permission mode for a newly created file and does not select append
mode), so the payload always replaces the previous contents. -/
def ioutilWriteFile (fs : FS) (path : String) (content : List Nat) : FS :=
  writeFileWithFlags true fs path content

/-- Observable outcome of one WriterHandler call. -/
structure WriterResult where
  fs : FS
  logs : Nat
  inFlightDelta : Int

/-- WriterHandler (main.go lines 242-247): writes the payload, logs on
failure (`writeFails` is the filesystem-error oracle), and always
decrements the in-flight counter. -/
def WriterHandler (fs : FS) (job : WriteJob) (writeFails : Bool) : WriterResult :=
  if writeFails then ⟨fs, 1, -1⟩
  else ⟨ioutilWriteFile fs job.fileName job.content, 0, -1⟩

/-- The completion check of main's final loop (main.go line 127): the run
reports "Download Finish" as soon as the in-flight counter is zero; the
started counter is not consulted. -/
def mainDoneCheck (downloadingCount : Int) : Prop := downloadingCount = 0

/-- The exit condition of DownloadImageWorker and WriteWorker (main.go
lines 177 and 236): in-flight counter zero and started counter positive. -/
def workerExitCheck (downloadingCount downloadStartCount : Int) : Prop :=
  downloadingCount = 0 ∧ 0 < downloadStartCount

/-- Effective worker-pool size (main.go lines 73-75): a configured
ThreadNum below 1 or above NumCPU is replaced by NumCPU; lines 96-100 then
spawn exactly that many DownloadImageWorker goroutines. -/
def effectiveThreadNum (threadNum numCPU : Int) : Int :=
  if threadNum < 1 ∨ threadNum > numCPU then numCPU else threadNum

/-- The producer goroutine (main.go lines 106-116) with GalleryInfo
abstracted as the `resolve` oracle: failed resolutions are logged and
skipped, successful ones get their Url field set and are sent on the
gallery channel in input order. -/
def producerGalleries (resolve : String → Option Gallery) :
    List String → List Gallery
  | [] => []
  | u :: rest =>
    match resolve u with
    | none => producerGalleries resolve rest
    | some g =>
      ⟨g.id, g.title, g.jpTitle, g.lang, g.files, u⟩ :: producerGalleries resolve rest

/-- Number of resolution failures the producer logs. -/
def resolveFailures (resolve : String → Option Gallery) (urls : List String) : Nat :=
  (urls.filter fun u => (resolve u).isNone).length

/-- The gallery consumption loop of main (main.go lines 118-124): receive a
gallery, process it, and break when its Url equals galleryUrls[i].  The
received list is the producer's output, so at every reachable state the
index is within bounds; an exhausted list models a receive on the drained
channel, which blocks forever (the Bool records whether the loop ever
broke out and reached the completion phase). -/
def mainLoop (urls : List String) : List Gallery → Nat → List Gallery × Bool
  | [], _ => ([], false)
  | g :: rest, i =>
    if urls[i]? = some g.url then ([g], true)
    else
      let r := mainLoop urls rest (i + 1)
      (g :: r.1, r.2)

/-- Galleries actually processed by main's gallery loop over a run, and
whether the loop terminated (rather than blocking on the drained
channel). -/
def mainGalleryPhase (resolve : String → Option Gallery) (urls : List String) :
    List Gallery × Bool :=
  mainLoop urls (producerGalleries resolve urls) 0

/-- Fan-out of DownloadGallery over a list of galleries: gallery number `i`
uses the MkdirAll oracle pair `mk i` (results for its savePath call and for
the id-suffixed retry), and its jobs are appended in order, as main's loop
calls DownloadGallery on each received gallery in sequence. -/
def galleriesJobs (conf : Conf) (mk : Nat → MkdirResult × MkdirResult) :
    List Gallery → Nat → List Job
  | [], _ => []
  | g :: rest, i =>
    (DownloadGallery g conf (mk i).1 (mk i).2).jobs
      ++ galleriesJobs conf mk rest (i + 1)

/-- Jobs enqueued over a whole run: the producer resolves the deduplicated
URLs in order (main.go lines 106-116), main's gallery loop consumes the
resolved galleries until its break condition fires (main.go lines 118-124),
and each gallery it actually processes fans out one job per image via
DownloadGallery. -/
def runJobs (conf : Conf) (resolve : String → Option Gallery)
    (urls : List String) (mk : Nat → MkdirResult × MkdirResult) : List Job :=
  galleriesJobs conf mk (mainGalleryPhase resolve urls).1 0

/-- Total number of WriteJobs attempted over a whole run, job `i` using
network oracle `net i`. -/
def totalWriteJobs (conf : Conf) (resolve : String → Option Gallery)
    (urls : List String) (mk : Nat → MkdirResult × MkdirResult)
    (net : Nat → Nat → Option (List Nat)) : Nat :=
  jobsWriteCount conf.retry net (runJobs conf resolve urls mk) 0

/-- Concrete fixtures used by witnesses and counterexamples. -/
def imgEx : Image := ⟨"1.jpg", "abc", 0, 0⟩

/-- Image whose h2 slice is "00" (hash "00f"). -/
def imgEx00 : Image := ⟨"1.jpg", "00f", 0, 0⟩

/-- A one-image gallery. -/
def gEx1 : Gallery := ⟨"1", "t", "", "", [imgEx], ""⟩

/-- A gallery with no images. -/
def gEmpty : Gallery := ⟨"2", "t", "", "", [], ""⟩

/-- A configuration with retry limit 0 and one worker. -/
def confEx0 : Conf := ⟨"", "", 0, 1⟩

/-- A concrete job. -/
def jobEx : Job := ⟨imgEx, gEx1, "d", confEx0⟩

/-- Resolution oracle failing exactly on "b". -/
def resolveSkipB : String → Option Gallery :=
  fun u => if u = "b" then none else some ⟨u, u, "", "", [], ""⟩

/-- Resolution oracle failing exactly on "a". -/
def resolveSkipA : String → Option Gallery :=
  fun u => if u = "a" then none else some ⟨u, u, "", "", [], ""⟩

/-- Resolution oracle resolving every URL to a one-image gallery. -/
def resolveOneImg : String → Option Gallery :=
  fun u => some ⟨u, u, "", "", [imgEx], ""⟩

/-- Resolution oracle resolving every URL to a zero-image gallery. -/
def resolveEmpty : String → Option Gallery :=
  fun u => some ⟨u, u, "", "", [], ""⟩

/-- MkdirAll oracle on which every directory creation succeeds. -/
def mkAllOk : Nat → MkdirResult × MkdirResult :=
  fun _ => (MkdirResult.ok, MkdirResult.ok)

/-! ### Helper lemmas -/

/-- String append is associative (used to compare URL decompositions). -/
theorem string_append_assoc (a b c : String) : a ++ b ++ c = a ++ (b ++ c) := by
  rcases a with ⟨da⟩; rcases b with ⟨db⟩; rcases c with ⟨dc⟩
  show String.mk (da ++ db ++ dc) = String.mk (da ++ (db ++ dc))
  rw [List.append_assoc]

/-- A successful attempt ends the retry loop with exactly one WriteJob. -/
theorem downloadLoopAux_success (job : Job) (net : Nat → Option (List Nat))
    (remaining tries : Nat) (body : List Nat) (h : net tries = some body) :
    downloadLoopAux job net remaining tries =
      ⟨1, [⟨body, job.savePath ++ "/" ++ downloadFileName job.image⟩], 0, 0⟩ := by
  cases remaining <;> simp [downloadLoopAux, h]

/-- A failed attempt with retries left recurses, counting one attempt. -/
theorem downloadLoopAux_stepEq (job : Job) (net : Nat → Option (List Nat))
    (r tries : Nat) (h : net tries = none) :
    downloadLoopAux job net (r + 1) tries =
      ⟨(downloadLoopAux job net r (tries + 1)).attempts + 1,
       (downloadLoopAux job net r (tries + 1)).writeJobs,
       (downloadLoopAux job net r (tries + 1)).logs,
       (downloadLoopAux job net r (tries + 1)).inFlightDelta⟩ := by
  simp [downloadLoopAux, h]

/-- A handler whose first attempt succeeds yields exactly one WriteJob. -/
theorem handler_first_success (job : Job) (retry : Int)
    (net : Nat → Option (List Nat)) (body : List Nat) (h : net 1 = some body) :
    DownloadImageHandler job retry net =
      ⟨1, [⟨body, job.savePath ++ "/" ++ downloadFileName job.image⟩], 0, 1⟩ := by
  unfold DownloadImageHandler
  rw [downloadLoopAux_success job net retry.toNat 1 body h]
  rfl

/-- When every job's first attempt succeeds, each job contributes exactly
one WriteJob. -/
theorem jobsWriteCount_all_success (retry : Int)
    (net : Nat → Nat → Option (List Nat)) (hnet : ∀ i, (net i 1).isSome) :
    ∀ (l : List Job) (i : Nat), jobsWriteCount retry net l i = l.length := by
  intro l
  induction l with
  | nil => intro i; rfl
  | cons j rest ih =>
    intro i
    obtain ⟨body, hb⟩ := Option.isSome_iff_exists.mp (hnet i)
    simp [jobsWriteCount, handler_first_success j retry (net i) body hb, ih (i + 1)]
    omega

/-- When every directory creation succeeds, the fan-out enqueues one job
per image of each processed gallery. -/
theorem galleriesJobs_length (conf : Conf) (mk : Nat → MkdirResult × MkdirResult)
    (hmk : ∀ i, (mk i).1 = MkdirResult.ok) :
    ∀ (gs : List Gallery) (i : Nat),
      (galleriesJobs conf mk gs i).length = (gs.map fun g => g.files.length).sum := by
  intro gs
  induction gs with
  | nil => intro _; rfl
  | cons g rest ih =>
    intro i
    simp [galleriesJobs, hmk i, DownloadGallery, ih (i + 1)]

/-- The elements emitted by the dedup loop are a sublist of the input. -/
theorem uniqueGo_sublist (l : List String) :
    ∀ seen, (uniqueGo l seen).Sublist l := by
  induction l with
  | nil => intro seen; simp [uniqueGo]
  | cons s rest ih =>
    intro seen
    simp only [uniqueGo]
    by_cases h : s ∈ seen
    · rw [if_pos h]
      exact List.Sublist.cons s (ih seen)
    · rw [if_neg h]
      exact List.Sublist.cons₂ s (ih (s :: seen))

/-- The dedup loop never emits an element of the seen set. -/
theorem uniqueGo_mem_not_seen (a : String) (l : List String) :
    ∀ seen, a ∈ uniqueGo l seen → a ∉ seen := by
  induction l with
  | nil => intro seen h; simp [uniqueGo] at h
  | cons s rest ih =>
    intro seen
    simp only [uniqueGo]
    by_cases hs : s ∈ seen
    · rw [if_pos hs]
      exact ih seen
    · rw [if_neg hs]
      intro h ha
      rcases List.mem_cons.mp h with rfl | h2
      · exact hs ha
      · exact ih (s :: seen) h2 (List.mem_cons_of_mem s ha)

/-- The dedup loop emits no duplicates. -/
theorem uniqueGo_nodup (l : List String) : ∀ seen, (uniqueGo l seen).Nodup := by
  induction l with
  | nil => intro seen; simp [uniqueGo]
  | cons s rest ih =>
    intro seen
    simp only [uniqueGo]
    by_cases hs : s ∈ seen
    · rw [if_pos hs]
      exact ih seen
    · rw [if_neg hs]
      refine List.nodup_cons.mpr ⟨fun hmem => ?_, ih (s :: seen)⟩
      exact uniqueGo_mem_not_seen s rest (s :: seen) hmem (List.mem_cons_self s seen)

/-- The dedup loop is the identity on duplicate-free input disjoint from
the seen set. -/
theorem uniqueGo_eq_self (l : List String) :
    ∀ seen, l.Nodup → (∀ a ∈ l, a ∉ seen) → uniqueGo l seen = l := by
  induction l with
  | nil => intro seen _ _; rfl
  | cons s rest ih =>
    intro seen hnd hdisj
    simp only [uniqueGo]
    rw [if_neg (hdisj s (List.mem_cons_self s rest))]
    have hnd' := List.nodup_cons.mp hnd
    congr 1
    refine ih (s :: seen) hnd'.2 fun a ha hmem => ?_
    rcases List.mem_cons.mp hmem with rfl | hmem2
    · exact hnd'.1 ha
    · exact hdisj a (List.mem_cons_of_mem s ha) hmem2

/-! ### Claim theorems -/

/-- C1 (amended): the worker and writer loops exit exactly when the
in-flight counter is zero and the started counter is positive — in
particular never before a job has started — but the completion report in
main requires only a zero in-flight counter, so it holds as well in the
state where no job was ever started. -/
theorem done_conditions (d s : Int) :
    (workerExitCheck d s → 0 < s) ∧ (mainDoneCheck d ↔ d = 0) ∧
    ¬ workerExitCheck d 0 ∧ mainDoneCheck 0 :=
  ⟨fun h => h.2, Iff.rfl, fun h => lt_irrefl 0 h.2, rfl⟩

/-- C1 counterexample: in a run whose single identifier resolves to a
gallery with zero images, main's loop processes that gallery and breaks,
no job is ever enqueued, both counters stay 0, and main's completion check
already holds with the started counter at 0 — the claim says completion is
never reported before the first job is enqueued. -/
theorem mainDone_with_zero_started :
    runJobs confEx0 resolveEmpty ["a"] mkAllOk = [] ∧
    mainDoneCheck 0 ∧ ¬ workerExitCheck 0 0 :=
  ⟨rfl, rfl, fun h => absurd h.2 (by decide)⟩

/-- C2: for every Image whose hash is long enough and whose h2 slice parses
as a (non-negative) hex value g, the URL built by ImageUrl starts with the
spec's shard subdomain: shard count 2 when g < 0x30 else 3, g clamped to 1
when g < 0x09, letter 97 + (g mod shardCount), suffix "a" for avif/webp
and "b" for the original asset. -/
theorem imageUrl_shard_subdomain (img : Image) (g : Int)
    (hlen : 3 ≤ img.hash.length) (hg : parseInt16 (imgH2 img) = some g)
    (hg0 : 0 ≤ g) :
    ∃ rest, ImageUrl img =
      some ("https://"
        ++ specShardSubdomain g (img.hasAvif == 1 || img.hasWebp == 1)
        ++ (".hitomi.la/" ++ rest)) := by
  clear hg0
  refine ⟨(if img.hasAvif == 1 then "avif"
      else if img.hasWebp == 1 then "webp" else "images")
    ++ "/" ++ imgH1 img ++ "/" ++ imgH2 img ++ "/" ++ img.hash
    ++ (if img.hasAvif == 1 then ".avif"
      else if img.hasWebp == 1 then ".webp" else filepathExt img.name), ?_⟩
  unfold ImageUrl specShardSubdomain
  rw [if_pos hlen]
  cases hA : img.hasAvif == 1 <;> cases hW : img.hasWebp == 1 <;>
    simp only [hA, hW, hg, Bool.false_or, Bool.true_or, Bool.or_self,
      if_true, if_false, Bool.false_eq_true, Bool.true_eq_false] <;>
    simp only [Option.some.injEq, string_append_assoc]

/-- C2 witness: the image with hash "00f" (h2 = "00", g = 0) gets the
subdomain computed by the spec algorithm, whose letter is then 98 = 'b'. -/
theorem imageUrl_shard_subdomain_witness :
    ∃ rest, ImageUrl imgEx00 =
      some ("https://"
        ++ specShardSubdomain 0 (imgEx00.hasAvif == 1 || imgEx00.hasWebp == 1)
        ++ (".hitomi.la/" ++ rest)) :=
  imageUrl_shard_subdomain imgEx00 0 (by decide) (by decide) (by decide)

/-- C3: with retry limit 2, a job whose first three attempts fail makes
exactly 3 attempts, produces no WriteJob, logs exactly once and ends with
in-flight contribution 0 (the entry increment cancelled by the abandon
decrement); a job failing twice and succeeding on the third attempt makes
3 attempts and produces exactly one WriteJob with no failure log. -/
theorem download_retry_behavior (job : Job) (net : Nat → Option (List Nat))
    (h1 : net 1 = none) (h2 : net 2 = none) :
    (net 3 = none → DownloadImageHandler job 2 net = ⟨3, [], 1, 0⟩) ∧
    (∀ body, net 3 = some body →
      DownloadImageHandler job 2 net =
        ⟨3, [⟨body, job.savePath ++ "/" ++ downloadFileName job.image⟩], 0, 1⟩) := by
  have e1 : downloadLoopAux job net 2 1 =
      ⟨(downloadLoopAux job net 1 2).attempts + 1,
       (downloadLoopAux job net 1 2).writeJobs,
       (downloadLoopAux job net 1 2).logs,
       (downloadLoopAux job net 1 2).inFlightDelta⟩ :=
    downloadLoopAux_stepEq job net 1 1 h1
  have e2 : downloadLoopAux job net 1 2 =
      ⟨(downloadLoopAux job net 0 3).attempts + 1,
       (downloadLoopAux job net 0 3).writeJobs,
       (downloadLoopAux job net 0 3).logs,
       (downloadLoopAux job net 0 3).inFlightDelta⟩ :=
    downloadLoopAux_stepEq job net 0 2 h2
  constructor
  · intro h3
    have e3 : downloadLoopAux job net 0 3 = ⟨1, [], 1, -1⟩ := by
      simp [downloadLoopAux, h3]
    unfold DownloadImageHandler
    rw [show ((2 : Int)).toNat = 2 from rfl, e1, e2, e3]
    rfl
  · intro body h3
    have e3 : downloadLoopAux job net 0 3 =
        ⟨1, [⟨body, job.savePath ++ "/" ++ downloadFileName job.image⟩], 0, 0⟩ := by
      simp [downloadLoopAux, h3]
    unfold DownloadImageHandler
    rw [show ((2 : Int)).toNat = 2 from rfl, e1, e2, e3]
    rfl

/-- C3 witness: a concrete job whose attempts all fail is attempted 3
times, logged once, abandoned with no WriteJob and in-flight delta 0. -/
theorem download_retry_behavior_witness :
    DownloadImageHandler jobEx 2 (fun _ => none) = ⟨3, [], 1, 0⟩ :=
  (download_retry_behavior jobEx (fun _ => none) rfl rfl).1 rfl

/-- C4: when the first MkdirAll fails with an exists-error, DownloadGallery
does retry once with the gallery id appended — but even when that retry
succeeds, the retry-success path falls through to the outer
log-and-return, so the gallery is skipped: no download job is enqueued. -/
theorem downloadGallery_collision_retry_still_skips (g : Gallery) (c : Conf) :
    (DownloadGallery g c MkdirResult.existsErr MkdirResult.ok).jobs = [] ∧
    (DownloadGallery g c MkdirResult.existsErr MkdirResult.ok).dirsTried =
      [galleryDirPath g c, galleryDirPath g c ++ " - " ++ g.id] :=
  ⟨rfl, rfl⟩

/-- C5 (amended): each successful download job yields exactly one WriteJob
and each retries-exhausted job yields none; jobs are enqueued only for the
galleries main's loop actually processes before its break, so when every
directory creation succeeds and every download succeeds on its first
attempt, the total number of WriteJobs equals the sum of image counts over
the galleries processed by main's gallery loop — which, because of the
loop-break bug, can be a strict subset of the galleries whose resolution
succeeded. -/
theorem totalWriteJobs_eq_sum_processed (conf : Conf)
    (resolve : String → Option Gallery) (urls : List String)
    (mk : Nat → MkdirResult × MkdirResult)
    (net : Nat → Nat → Option (List Nat))
    (hmk : ∀ i, (mk i).1 = MkdirResult.ok)
    (hnet : ∀ i, (net i 1).isSome) :
    totalWriteJobs conf resolve urls mk net =
      ((mainGalleryPhase resolve urls).1.map fun g => g.files.length).sum := by
  unfold totalWriteJobs runJobs
  rw [jobsWriteCount_all_success conf.retry net hnet _ 0,
    galleriesJobs_length conf mk hmk _ 0]

/-- C5 witness: a two-identifier run where every URL resolves to a
one-image gallery and every directory creation and download succeeds — the
WriteJob total equals the image-count sum over the galleries the loop
processed. -/
theorem totalWriteJobs_eq_sum_processed_witness :
    totalWriteJobs confEx0 resolveOneImg ["a", "b"] mkAllOk
        (fun _ _ => some [7]) =
      ((mainGalleryPhase resolveOneImg ["a", "b"]).1.map
        fun g => g.files.length).sum :=
  totalWriteJobs_eq_sum_processed confEx0 resolveOneImg ["a", "b"] mkAllOk
    (fun _ _ => some [7]) (fun _ => rfl) (fun _ => rfl)

/-- C5 counterexample, refuting the claimed equality with the sum over all
resolution-succeeded galleries on two runs: (1) identifiers ["a", "b"] both
resolve with one image each and every download succeeds, but main's loop
breaks after gallery "a", so the run produces 1 WriteJob while the resolved
image-count sum is 2; (2) a single identifier resolves with one image whose
download always fails, producing 0 WriteJobs while the resolved
image-count sum is 1. -/
theorem totalWriteJobs_counterexample :
    totalWriteJobs confEx0 resolveOneImg ["a", "b"] mkAllOk
      (fun _ _ => some [7]) = 1 ∧
    ((producerGalleries resolveOneImg ["a", "b"]).map
      fun g => g.files.length).sum = 2 ∧
    totalWriteJobs confEx0 resolveOneImg ["a"] mkAllOk (fun _ _ => none) = 0 ∧
    ((producerGalleries resolveOneImg ["a"]).map
      fun g => g.files.length).sum = 1 := by
  decide

/-- C6: with identifiers ["a", "b", "c"] and resolution failing only on
"b", the failure is logged (counted) and the producer skips just that
gallery, but main's loop breaks after processing "a" alone (its break
condition gallery.Url == galleryUrls[i] already holds at i = 0), so "c" is
never processed; with the failure on "a" instead, all remaining galleries
are processed but the loop never breaks and blocks forever on the drained
channel, so the run never reaches its completion phase. -/
theorem main_loop_abandons_remaining :
    resolveFailures resolveSkipB ["a", "b", "c"] = 1 ∧
    ((mainGalleryPhase resolveSkipB ["a", "b", "c"]).1.map fun g => g.url)
      = ["a"] ∧
    ((mainGalleryPhase resolveSkipA ["a", "b", "c"]).1.map fun g => g.url)
      = ["b", "c"] ∧
    (mainGalleryPhase resolveSkipA ["a", "b", "c"]).2 = false := by
  decide

/-- C7: the write worker writes with create-or-truncate semantics — after a
successful write the destination holds exactly the payload bytes, whatever
the file contained before — and the in-flight counter is decremented on
both the success and the failure path, with a log only on failure. -/
theorem writerHandler_truncates (fs : FS) (job : WriteJob) :
    (WriterHandler fs job false).fs job.fileName = some job.content ∧
    (∀ b : Bool, (WriterHandler fs job b).inFlightDelta = -1) ∧
    (WriterHandler fs job true).logs = 1 := by
  refine ⟨?_, fun b => ?_, rfl⟩
  · simp [WriterHandler, ioutilWriteFile, writeFileWithFlags]
  · cases b <;> rfl

/-- C8 (amended): for configured worker counts of at least 1 the pool size
is min(configuredWorkerCount, availableParallelism); a count below 1 is
replaced by availableParallelism instead, where min would give a
non-positive pool. -/
theorem effectiveThreadNum_eq_min (t n : Int) (ht : 1 ≤ t) :
    effectiveThreadNum t n = min t n := by
  unfold effectiveThreadNum
  rcases le_total t n with h | h
  · rw [min_eq_left h]
    split_ifs with hc
    · rcases hc with hc | hc <;> omega
    · rfl
  · rw [min_eq_right h]
    split_ifs with hc
    · rfl
    · push_neg at hc
      omega

/-- C8 witness: a configured count of 2 with 4 CPUs gives min 2 4 = 2
workers. -/
theorem effectiveThreadNum_eq_min_witness :
    effectiveThreadNum 2 4 = min 2 4 :=
  effectiveThreadNum_eq_min 2 4 (by norm_num)

/-- C8 counterexample: a configured count of 0 with 8 CPUs yields 8
workers, not min 0 8 = 0 as the claim states for every configuration. -/
theorem effectiveThreadNum_counterexample :
    effectiveThreadNum 0 8 = 8 ∧ min (0 : Int) 8 = 0 ∧ (8 : Int) ≠ 0 :=
  ⟨by decide, by simp, by decide⟩

/-- C9: Unique returns first occurrences in order with duplicates removed
(it is a duplicate-free sublist of its input, and on the example
["a","b","a"] yields ["a","b"]), and it is idempotent. -/
theorem unique_dedup_properties :
    (∀ x : List String, Unique (Unique x) = Unique x) ∧
    Unique ["a", "b", "a"] = ["a", "b"] ∧
    ∀ x : List String, (Unique x).Sublist x ∧ (Unique x).Nodup := by
  refine ⟨fun x => ?_, by decide,
    fun x => ⟨uniqueGo_sublist x [], uniqueGo_nodup x []⟩⟩
  exact uniqueGo_eq_self (Unique x) [] (uniqueGo_nodup x []) (by simp)

/-- C10: ImageUrl is defined (returns a value rather than hitting an
out-of-bounds hash slice) exactly for images whose hash has length at
least 3. -/
theorem imageUrl_defined_iff_hash_len (img : Image) :
    (ImageUrl img).isSome = true ↔ 3 ≤ img.hash.length := by
  by_cases h : 3 ≤ img.hash.length <;> simp [ImageUrl, h]

end HitomiGo
